import Mathlib

/-!
Shallow embedding of the react-ts-information-flow code-along.

Source files modelled:
- `src/src/Child.tsx`: the `Child` component (props interface, `handleClick`,
  rendered element).
- `src/unnamed/part_000` (the lesson text): the final `Parent` component —
  its two `useState` cells (lines 180–187), its render output passing
  `color={childrenColor}` and `onChangeColor={handleChangeColor}` to both
  `Child` instances (lines 193–199), and `handleChangeColor` (lines 237–241).

Randomness is modelled as an explicit stream of colors together with a read
position; `getRandomColor` consumes the next stream element. State updates
(`setColor` / `setChildrenColor`) are modelled by explicit state passing: an
event handler maps the prior parent state and random source to the new ones.
-/

/-- A color value is a string (e.g. a hex code like "#FFF"). -/
abbrev Color := String

/-- Modelled from the spec: `src/randomColorGenerator.ts` is not in the
sources. §4.1 describes it as a zero-argument function returning a color
value, with no observable effect beyond the randomness itself. We model the
randomness source explicitly as an infinite stream of colors plus the index
of the next unread element. -/
structure RandomSource where
  stream : Nat → Color
  idx : Nat

/-- Modelled from the spec: `getRandomColor()` returns the next color from
the randomness source and advances it. -/
def getRandomColor (r : RandomSource) : Color × RandomSource :=
  (r.stream r.idx, { stream := r.stream, idx := r.idx + 1 })

/-- The two state cells of `Parent` (part_000 lines 180–187):
`const [color, setColor] = useState(randomColor);`
`const [childrenColor, setChildrenColor] = useState("#FFF");` -/
structure ParentState where
  color : Color
  childrenColor : Color
deriving DecidableEq, Repr

/-- Parent state at mount (part_000 lines 180–187):
`const randomColor = getRandomColor();`
`const [color, setColor] = useState(randomColor);`
`const [childrenColor, setChildrenColor] = useState("#FFF");` -/
def Parent.init (r : RandomSource) : ParentState × RandomSource :=
  let (randomColor, r1) := getRandomColor r
  ({ color := randomColor, childrenColor := "#FFF" }, r1)

/-- `handleChangeColor` (part_000 lines 237–241):
`function handleChangeColor(newChildColor: string) \x7b`
`  const newRandomColor = getRandomColor();`
`  setColor(newRandomColor);`
`  setChildrenColor(newChildColor);`
`\x7d`
The two setters replace the respective cells of the prior state `s`. -/
def handleChangeColor (newChildColor : Color) (s : ParentState)
    (r : RandomSource) : ParentState × RandomSource :=
  let (newRandomColor, r1) := getRandomColor r
  ({ color := newRandomColor, childrenColor := newChildColor }, r1)

/-- The handler type of `onChangeColor`: it receives one color argument; its
effect (via the closed-over setters) maps the parent state and random source
to new ones. -/
abbrev Handler := Color → ParentState → RandomSource → ParentState × RandomSource

/-- The `Props` interface of `Child.tsx` (lines 3–6):
`onChangeColor(newChildColor: string): void; color: string;`. -/
structure ChildProps where
  onChangeColor : Handler
  color : Color

/-- The element rendered by `Child` (Child.tsx lines 14–20): a single `div`
with an `onClick` handler, a class name and a background color. -/
structure ChildElement where
  onClick : ParentState → RandomSource → ParentState × RandomSource
  className : String
  backgroundColor : Color

/-- The `Child` component (Child.tsx lines 8–21):
`function handleClick() \x7b const newColor = getRandomColor(); onChangeColor(newColor); \x7d`
`return <div onClick=\x7bhandleClick\x7d className="child" style=\x7b\x7bbackgroundColor: color\x7d\x7d />;` -/
def Child (props : ChildProps) : ChildElement :=
  let handleClick : ParentState → RandomSource → ParentState × RandomSource :=
    fun s r =>
      let (newColor, r1) := getRandomColor r
      props.onChangeColor newColor s r1
  { onClick := handleClick
    className := "child"
    backgroundColor := props.color }

/-- Props passed to the first `Child` instance (part_000 line 195):
`<Child color=\x7bchildrenColor\x7d onChangeColor=\x7bhandleChangeColor\x7d />`. -/
def Parent.child1Props (s : ParentState) : ChildProps :=
  { onChangeColor := handleChangeColor, color := s.childrenColor }

/-- Props passed to the second `Child` instance (part_000 line 196):
`<Child color=\x7bchildrenColor\x7d onChangeColor=\x7bhandleChangeColor\x7d />`. -/
def Parent.child2Props (s : ParentState) : ChildProps :=
  { onChangeColor := handleChangeColor, color := s.childrenColor }

/-- The element rendered by `Parent` (part_000 lines 193–199): a `div` with
class `parent`, background from the `color` state, containing the two
`Child` instances. -/
structure ParentElement where
  className : String
  backgroundColor : Color
  child1 : ChildElement
  child2 : ChildElement

/-- Parent render output (part_000 lines 193–199). -/
def Parent.render (s : ParentState) : ParentElement :=
  { className := "parent"
    backgroundColor := s.color
    child1 := Child (Parent.child1Props s)
    child2 := Child (Parent.child2Props s) }

/-- An interaction event: a click on either `Child` instance. -/
inductive Event where
  | clickChild1
  | clickChild2
deriving DecidableEq, Repr

/-- One interaction event: the framework dispatches the click to the
`onClick` handler of the corresponding rendered child. -/
def step (e : Event) (s : ParentState) (r : RandomSource) :
    ParentState × RandomSource :=
  match e with
  | Event.clickChild1 => (Parent.render s).child1.onClick s r
  | Event.clickChild2 => (Parent.render s).child2.onClick s r

/-- Run a sequence of interaction events from a given state and source. -/
def run : List Event → ParentState × RandomSource → ParentState × RandomSource
  | [], sr => sr
  | e :: es, (s, r) => run es (step e s r)

/-- A concrete randomness source used to instantiate theorems with
hypotheses at explicit inputs. -/
def rsrcA : RandomSource :=
  { stream := fun _ => "#A1B2C3", idx := 0 }

/-- A second concrete randomness source, differing from `rsrcA` in the
colors it yields. -/
def rsrcB : RandomSource :=
  { stream := fun _ => "#0F0F0F", idx := 0 }

/-- Helper: `handleChangeColor` sets the `color` cell to the generator's
output. Holds by unfolding the definition. -/
theorem handleChangeColor_color_eq (c : Color) (s : ParentState)
    (r : RandomSource) :
    (handleChangeColor c s r).1.color = (getRandomColor r).1 := rfl

/-- Helper: `handleChangeColor` sets the `childrenColor` cell to its
argument. Holds by unfolding the definition. -/
theorem handleChangeColor_childrenColor_eq (c : Color) (s : ParentState)
    (r : RandomSource) :
    (handleChangeColor c s r).1.childrenColor = c := rfl

/-- C1: after any sequence of interaction events on either Child instance,
starting from the mounted Parent, both rendered Child instances have the
same background color, namely the single `childrenColor` state cell of
Parent. Since the event list is universally quantified, this holds after
each event of any interaction sequence. -/
theorem children_always_same_color (es : List Event) (r : RandomSource) :
    (Parent.render (run es (Parent.init r)).1).child1.backgroundColor =
      (Parent.render (run es (Parent.init r)).1).child2.backgroundColor ∧
    (Parent.render (run es (Parent.init r)).1).child1.backgroundColor =
      (run es (Parent.init r)).1.childrenColor := by
  exact ⟨rfl, rfl⟩

/-- C2: for every prior state and every argument string `c`, invoking
`handleChangeColor` with `c` sets the `childrenColor` state to exactly `c`,
unmodified; in particular with argument "#123ABC" the `childrenColor` state
becomes "#123ABC" regardless of its prior value. -/
theorem handleChangeColor_sets_childrenColor :
    (∀ (c : Color) (s : ParentState) (r : RandomSource),
      (handleChangeColor c s r).1.childrenColor = c) ∧
    (∀ (s : ParentState) (r : RandomSource),
      (handleChangeColor "#123ABC" s r).1.childrenColor = "#123ABC") := by
  exact ⟨fun c s r => handleChangeColor_childrenColor_eq c s r,
    fun s r => handleChangeColor_childrenColor_eq "#123ABC" s r⟩

/-- C3: on an interaction event, `Child`'s click handler calls the color
generator once and then invokes the caller-supplied notification function
with exactly that freshly generated color as its sole color argument: the
handler's entire effect is one invocation of `onChangeColor` at the
generator's output, on the advanced random source. -/
theorem child_click_notifies_with_generated_color (props : ChildProps)
    (s : ParentState) (r : RandomSource) :
    (Child props).onClick s r =
      props.onChangeColor ((getRandomColor r).1) s ((getRandomColor r).2) := by
  rfl

/-- C4: every invocation of `handleChangeColor`, for every argument and
every prior state, assigns the color generator's freshly generated output to
the Parent `color` cell. -/
theorem handleChangeColor_sets_color (c : Color) (s : ParentState)
    (r : RandomSource) :
    (handleChangeColor c s r).1.color = (getRandomColor r).1 := by
  exact handleChangeColor_color_eq c s r

/-- C5: the Parent passes the same handler function value to both Child
instances: the `onChangeColor` prop of the first child equals that of the
second, and both are Parent's `handleChangeColor` itself. -/
theorem same_handler_to_both_children (s : ParentState) :
    (Parent.child1Props s).onChangeColor = (Parent.child2Props s).onChangeColor ∧
    (Parent.child1Props s).onChangeColor = handleChangeColor ∧
    (Parent.child2Props s).onChangeColor = handleChangeColor := by
  exact ⟨rfl, rfl, rfl⟩

/-- C6: at mount, the `childrenColor` state is the fixed default "#FFF",
both rendered Child elements have background "#FFF", and the `color` state
is the value obtained from the color generator. -/
theorem initial_render_state (r : RandomSource) :
    (Parent.init r).1.childrenColor = "#FFF" ∧
    (Parent.render (Parent.init r).1).child1.backgroundColor = "#FFF" ∧
    (Parent.render (Parent.init r).1).child2.backgroundColor = "#FFF" ∧
    (Parent.init r).1.color = (getRandomColor r).1 := by
  exact ⟨rfl, rfl, rfl, rfl⟩

/-- C7: the element rendered by `Child` carries exactly the `color` prop it
was given as its background color, with no transformation applied, and it is
the single `div` element with class "child". -/
theorem child_renders_prop_color (props : ChildProps) :
    (Child props).backgroundColor = props.color ∧
    (Child props).className = "child" := by
  exact ⟨rfl, rfl⟩

/-- C8: the Child retains no memory of prior invocations: its rendered
output after any event history depends only on the current `childrenColor`
value it receives as a prop. Two runs with arbitrary different histories and
randomness that agree on the current `childrenColor` render both Child
elements identically (handler, class and background included). -/
theorem child_output_history_independent (es es1 : List Event)
    (r r1 : RandomSource)
    (h : (run es (Parent.init r)).1.childrenColor =
      (run es1 (Parent.init r1)).1.childrenColor) :
    (Parent.render (run es (Parent.init r)).1).child1 =
      (Parent.render (run es1 (Parent.init r1)).1).child1 ∧
    (Parent.render (run es (Parent.init r)).1).child2 =
      (Parent.render (run es1 (Parent.init r1)).1).child2 := by
  constructor <;>
    · unfold Parent.render Parent.child1Props Parent.child2Props
      rw [h]

/-- C8 witness: two distinct concrete runs (the empty history on `rsrcA`
and a one-click history on `rsrcB` followed by a click reporting "#FFF") —
instantiated here at the empty histories on the two different sources, whose
`childrenColor` both equal "#FFF". -/
theorem child_output_history_independent_witness :
    (Parent.render (run [] (Parent.init rsrcA)).1).child1 =
      (Parent.render (run [] (Parent.init rsrcB)).1).child1 ∧
    (Parent.render (run [] (Parent.init rsrcA)).1).child2 =
      (Parent.render (run [] (Parent.init rsrcB)).1).child2 :=
  child_output_history_independent [] [] rsrcA rsrcB rfl

/-- C9: the Parent `color` state is never read by the children: the props
given to each Child, and hence each Child's rendered output, are independent
of the Parent `color` value. Two states differing only in `color` yield
identical props and identical rendered Child elements. -/
theorem children_independent_of_parent_color (s s1 : ParentState)
    (h : s.childrenColor = s1.childrenColor) :
    Parent.child1Props s = Parent.child1Props s1 ∧
    Parent.child2Props s = Parent.child2Props s1 ∧
    (Parent.render s).child1 = (Parent.render s1).child1 ∧
    (Parent.render s).child2 = (Parent.render s1).child2 := by
  refine ⟨?_, ?_, ?_, ?_⟩ <;>
    · simp only [Parent.render, Parent.child1Props, Parent.child2Props]
      rw [h]

/-- C9 witness: two concrete states sharing `childrenColor` "#FFF" but with
different Parent colors produce identical child props and elements. -/
theorem children_independent_of_parent_color_witness :
    Parent.child1Props { color := "#111111", childrenColor := "#FFF" } =
      Parent.child1Props { color := "#222222", childrenColor := "#FFF" } ∧
    Parent.child2Props { color := "#111111", childrenColor := "#FFF" } =
      Parent.child2Props { color := "#222222", childrenColor := "#FFF" } ∧
    (Parent.render { color := "#111111", childrenColor := "#FFF" }).child1 =
      (Parent.render { color := "#222222", childrenColor := "#FFF" }).child1 ∧
    (Parent.render { color := "#111111", childrenColor := "#FFF" }).child2 =
      (Parent.render { color := "#222222", childrenColor := "#FFF" }).child2 :=
  children_independent_of_parent_color
    { color := "#111111", childrenColor := "#FFF" }
    { color := "#222222", childrenColor := "#FFF" } rfl

/-- C10: the two updates of `handleChangeColor` are independent of each
other's inputs: the new `color` depends only on the generator's output (two
invocations with different arguments and prior states but equal generator
outputs give equal new `color`), and the new `childrenColor` depends only on
the argument (two invocations with the same argument but arbitrary —
hence also different — prior states, random sources and generator outputs
`r2`, `r3` give equal new `childrenColor`; the equal-outputs hypothesis `h`
constrains only `r` and `r1`, not `r2` and `r3`). -/
theorem handleChangeColor_updates_independent (c c1 : Color)
    (s s1 : ParentState) (r r1 r2 r3 : RandomSource)
    (h : (getRandomColor r).1 = (getRandomColor r1).1) :
    (handleChangeColor c s r).1.color = (handleChangeColor c1 s1 r1).1.color ∧
    (handleChangeColor c s r2).1.childrenColor =
      (handleChangeColor c s1 r3).1.childrenColor := by
  constructor
  · exact h
  · rfl

/-- C10 witness: the `color` conjunct is instantiated at arguments
"#123ABC" and "#00FF00", two different prior states, and the two concrete
sources `rsrcA` and a shifted copy of `rsrcA` (equal next outputs,
discharging the hypothesis); the `childrenColor` conjunct is instantiated
at `rsrcA` and `rsrcB`, whose next generator outputs differ ("#A1B2C3"
versus "#0F0F0F"), so it exercises the different-outputs case. -/
theorem handleChangeColor_updates_independent_witness :
    ((getRandomColor rsrcA).1 =
      (getRandomColor { stream := fun _ => "#A1B2C3", idx := 5 }).1) ∧
    ((handleChangeColor "#123ABC" { color := "#111111", childrenColor := "#FFF" }
        rsrcA).1.color =
      (handleChangeColor "#00FF00" { color := "#222222", childrenColor := "#AA11BB" }
        { stream := fun _ => "#A1B2C3", idx := 5 }).1.color ∧
    (handleChangeColor "#123ABC" { color := "#111111", childrenColor := "#FFF" }
        rsrcA).1.childrenColor =
      (handleChangeColor "#123ABC" { color := "#222222", childrenColor := "#AA11BB" }
        rsrcB).1.childrenColor) :=
  ⟨rfl,
    handleChangeColor_updates_independent "#123ABC" "#00FF00"
      { color := "#111111", childrenColor := "#FFF" }
      { color := "#222222", childrenColor := "#AA11BB" }
      rsrcA { stream := fun _ => "#A1B2C3", idx := 5 } rsrcA rsrcB rfl⟩
